import Mathlib

/-!
Verification of the content-management front-end's review/revision workflow.

The definitions below are shallow embeddings of the TypeScript source:
* `ContentAPI.*`      — `src/frontend/src/lib/api.ts`
* `ReviewActions.*`   — `src/frontend/src/components/review/PracticeProblemsPanel.tsx`
* `RevisionDialog.*`  — `components/RevisionDialog.tsx`
* `Polling.*`         — `src/frontend/src/lib/hooks/usePolling.ts`
* `Tracker.*`         — `src/frontend/src/components/GenerationProgress.tsx`
* `ContentProvider.*` — `lib/context.tsx`

An HTTP exchange is modelled by the response the remote service hands back:
a numeric status plus the outcome of parsing the error body (`ErrorBody`),
and, for 2xx responses, the decoded payload, which the client treats as
opaque.  A fulfilled promise is `Except.ok`, a rejected one `Except.error`
carrying the thrown `Error`'s message.
-/

/-! ## JavaScript string semantics -/

/-- JS `String.prototype.trim()` on the ASCII whitespace the workflows use:
drop whitespace from both ends. -/
def jsTrim (s : String) : String :=
  ⟨((s.data.dropWhile Char.isWhitespace).reverse.dropWhile Char.isWhitespace).reverse⟩

/-- JS `a || b` where `a` is a string: the empty string is falsy. -/
def jsOrString (s fallback : String) : String :=
  if s = "" then fallback else s

/-- JS `a.detail || b` where `detail` may be absent (`undefined`) or an
empty (falsy) string. -/
def jsOrField (detail : Option String) (fallback : String) : String :=
  match detail with
  | none => fallback
  | some d => jsOrString d fallback

/-- Whether `pre` is a prefix of `l`, comparing element-wise (JS-style). -/
def listStartsWith (pre l : List Char) : Bool :=
  match pre, l with
  | [], _ => true
  | _ :: _, [] => false
  | p :: ps, c :: cs => p == c && listStartsWith ps cs

/-- Whether `pat` occurs as a contiguous run inside `l`. -/
def listHasRun (pat l : List Char) : Bool :=
  match l with
  | [] => pat.isEmpty
  | _ :: t => listStartsWith pat l || listHasRun pat t

/-- JS `s.includes(pat)` (for the non-empty needles the source uses). -/
def jsIncludes (s pat : String) : Bool :=
  listHasRun pat.data s.data

/-! ## Data model (`lib/types.ts`, `lib/api.ts`)

Only the fields the workflow logic reads are carried; the remaining fields
of the TypeScript interfaces are opaque display data. -/

/-- `ComponentType` union from `lib/types.ts`. -/
inductive ComponentType where
  | reading
  | visual
  | audio
  | practice
deriving DecidableEq, Repr

/-- Priority union `'low' | 'medium' | 'high'`. -/
inductive Priority where
  | low
  | medium
  | high
deriving DecidableEq, Repr

/-- A content package as cached by the client (fields the logic reads). -/
structure ContentPackage where
  id : String
  subject : String
  unit : String
  status : String
deriving DecidableEq, Repr

/-- `ComponentRevision` request payload (`lib/api.ts`). -/
structure ComponentRevision where
  component_type : ComponentType
  feedback : String
  priority : Priority
deriving DecidableEq, Repr

/-- `RevisionRequest` body sent by `reviseContentPackage` (`lib/api.ts`). -/
structure RevisionRequest where
  package_id : String
  subject : String
  unit : String
  revisions : List ComponentRevision
  reviewer_id : Option String
deriving DecidableEq, Repr

/-- One `RevisionHistory` entry (`lib/api.ts`). -/
structure RevisionHistory where
  revision_id : String
  feedback_summary : String
  status : String
deriving DecidableEq, Repr

/-- `ReviewStatusUpdate` body sent by `updatePackageStatus` (`lib/api.ts`). -/
structure ReviewStatusUpdate where
  status : String
  reviewer_id : String
  notes : String
deriving DecidableEq, Repr

/-- The server's response object for `PUT /api/v1/packages/{id}/status`. -/
structure StatusUpdateResponse where
  message : String
  package_id : String
  old_status : String
  new_status : String
  updated_at : String
  package : ContentPackage
deriving DecidableEq, Repr

/-! ## HTTP response model -/

/-- `Response.ok` of the fetch API: status in the inclusive range 200–299. -/
def respOk (status : Nat) : Bool :=
  decide (200 ≤ status ∧ status ≤ 299)

/-- Outcome of `response.json()` on an error response: the parse can reject,
or produce an object whose `detail` field is absent or a string. -/
inductive ErrorBody where
  | unparsable
  | parsed (detail : Option String)
deriving DecidableEq, Repr

/-- The `const error = await response.json().catch(() => ({ detail: parseFallback }));
throw new Error(error.detail || genericFallback)` pattern of `lib/api.ts`. -/
def detailMessage (body : ErrorBody) (parseFallback genericFallback : String) : String :=
  match body with
  | ErrorBody.unparsable => jsOrString parseFallback genericFallback
  | ErrorBody.parsed d => jsOrField d genericFallback

namespace ContentAPI

/-! Each method is a function of the HTTP response it receives: the status
code, the error body (ignored by the methods that never parse it), and the
decoded 2xx payload.  The result is the promise's outcome. -/

/-- `POST /api/v1/generate-content`. -/
def generateContent (status : Nat) (body : ErrorBody) (pkg : ContentPackage) :
    Except String ContentPackage :=
  if respOk status then Except.ok pkg
  else Except.error (detailMessage body "Generation failed" "Failed to generate content")

/-- `POST /api/v1/generate-content-enhanced`. -/
def generateContentEnhanced (status : Nat) (body : ErrorBody) (pkg : ContentPackage) :
    Except String ContentPackage :=
  if respOk status then Except.ok pkg
  else Except.error (detailMessage body "Enhanced generation failed" "Failed to generate enhanced content")

/-- `POST /api/v1/curriculum/load`. -/
def loadCurriculumData {α : Type} (status : Nat) (body : ErrorBody) (result : α) :
    Except String α :=
  if respOk status then Except.ok result
  else Except.error (detailMessage body "Curriculum load failed" "Failed to load curriculum")

/-- `GET /api/v1/curriculum/status` (never reads the error body). -/
def getCurriculumStatus {α : Type} (status : Nat) (_body : ErrorBody) (result : α) :
    Except String α :=
  if respOk status then Except.ok result
  else Except.error "Failed to get curriculum status"

/-- `GET /api/v1/curriculum/subjects`. -/
def getSubjects {α : Type} (status : Nat) (_body : ErrorBody) (result : α) :
    Except String α :=
  if respOk status then Except.ok result
  else Except.error "Failed to get subjects"

/-- `GET /api/v1/curriculum/grades`. -/
def getGrades {α : Type} (status : Nat) (_body : ErrorBody) (result : α) :
    Except String α :=
  if respOk status then Except.ok result
  else Except.error "Failed to get grades"

/-- `GET /api/v1/curriculum/browse`. -/
def browseCurriculum {α : Type} (status : Nat) (_body : ErrorBody) (result : α) :
    Except String α :=
  if respOk status then Except.ok result
  else Except.error "Failed to browse curriculum"

/-- `GET /api/v1/curriculum/context/{subskillId}`: distinguishes 404. -/
def getCurriculumContext {α : Type} (status : Nat) (_body : ErrorBody) (result : α) :
    Except String α :=
  if respOk status then Except.ok result
  else if status = 404 then Except.error "Subskill not found in curriculum"
  else Except.error "Failed to get curriculum context"

/-- `GET /api/v1/curriculum/learning-path/{skillId}`. -/
def getLearningPath {α : Type} (status : Nat) (_body : ErrorBody) (result : α) :
    Except String α :=
  if respOk status then Except.ok result
  else Except.error "Failed to get learning path"

/-- `GET /api/v1/curriculum/subskill-path/{subskillId}`. -/
def getSubskillPath {α : Type} (status : Nat) (_body : ErrorBody) (result : α) :
    Except String α :=
  if respOk status then Except.ok result
  else Except.error "Failed to get subskill path"

/-- `GET /api/v1/content/{id}`: distinguishes 404 as a not-found error. -/
def getContentPackage (status : Nat) (_body : ErrorBody) (pkg : ContentPackage) :
    Except String ContentPackage :=
  if respOk status then Except.ok pkg
  else if status = 404 then Except.error "Content package not found"
  else Except.error "Failed to retrieve content package"

/-- `GET /api/v1/content`. -/
def listContentPackages (status : Nat) (_body : ErrorBody) (pkgs : List ContentPackage) :
    Except String (List ContentPackage) :=
  if respOk status then Except.ok pkgs
  else Except.error "Failed to list content packages"

/-- `DELETE /api/v1/content/{id}`: `return response.ok` — the promise always
fulfils, with a boolean. -/
def deleteContentPackage (status : Nat) (_body : ErrorBody) : Except String Bool :=
  Except.ok (respOk status)

/-- `PUT /api/v1/content/{id}/revise`. -/
def reviseContentPackage (status : Nat) (body : ErrorBody) (pkg : ContentPackage) :
    Except String ContentPackage :=
  if respOk status then Except.ok pkg
  else Except.error (detailMessage body "Revision failed" "Failed to revise content package")

/-- The request body `reviseContentPackage` serialises. -/
def reviseRequestBody (packageId subject unit : String)
    (revisions : List ComponentRevision) (reviewerId : Option String) : RevisionRequest :=
  { package_id := packageId, subject := subject, unit := unit,
    revisions := revisions, reviewer_id := reviewerId }

/-- `GET /api/v1/content/{id}/revisions`: 404 is mapped to the empty list. -/
def getRevisionHistory (status : Nat) (_body : ErrorBody) (hist : List RevisionHistory) :
    Except String (List RevisionHistory) :=
  if respOk status then Except.ok hist
  else if status = 404 then Except.ok []
  else Except.error "Failed to get revision history"

/-- `GET /api/v1/packages/review-queue`. -/
def getReviewQueue (status : Nat) (_body : ErrorBody) (pkgs : List ContentPackage) :
    Except String (List ContentPackage) :=
  if respOk status then Except.ok pkgs
  else Except.error "Failed to get packages for review"

/-- `PUT /api/v1/packages/{id}/status`. -/
def updatePackageStatus (status : Nat) (body : ErrorBody) (result : StatusUpdateResponse) :
    Except String StatusUpdateResponse :=
  if respOk status then Except.ok result
  else Except.error (detailMessage body "Status update failed" "Failed to update package status")

/-- `GET /api/v1/packages/{id}/review-info`: distinguishes 404. -/
def getPackageReviewInfo {α : Type} (status : Nat) (_body : ErrorBody) (result : α) :
    Except String α :=
  if respOk status then Except.ok result
  else if status = 404 then Except.error "Package not found"
  else Except.error "Failed to get package review info"

/-- `approvePackage`: builds the status-update body (substituting a default
message for falsy notes: absent or the empty string) and forwards it to
`updatePackageStatus`.  Returns the body it sent alongside the outcome. -/
def approvePackage (_packageId _subject _unit reviewerId : String) (notes : Option String)
    (status : Nat) (body : ErrorBody) (result : StatusUpdateResponse) :
    ReviewStatusUpdate × Except String StatusUpdateResponse :=
  ({ status := "approved", reviewer_id := reviewerId,
     notes := jsOrField notes "Package approved for publication" },
   updatePackageStatus status body result)

/-- `rejectPackage`: notes are a required argument, forwarded verbatim. -/
def rejectPackage (_packageId _subject _unit reviewerId notes : String)
    (status : Nat) (body : ErrorBody) (result : StatusUpdateResponse) :
    ReviewStatusUpdate × Except String StatusUpdateResponse :=
  ({ status := "rejected", reviewer_id := reviewerId, notes := notes },
   updatePackageStatus status body result)

/-- `requestChanges`: notes forwarded verbatim. -/
def requestChanges (_packageId _subject _unit reviewerId notes : String)
    (status : Nat) (body : ErrorBody) (result : StatusUpdateResponse) :
    ReviewStatusUpdate × Except String StatusUpdateResponse :=
  ({ status := "needs_revision", reviewer_id := reviewerId, notes := notes },
   updatePackageStatus status body result)

/-- `GET /api/v1/packages/{subject}`. -/
def getPackagesBySubject {α : Type} (status : Nat) (_body : ErrorBody)
    (subject : String) (result : α) : Except String α :=
  if respOk status then Except.ok result
  else Except.error ("Failed to get packages for " ++ subject)

/-- `GET /api/v1/health`: returns `response.json()` without inspecting the
status at all. -/
def healthCheck {α : Type} (_status : Nat) (_body : ErrorBody) (result : α) :
    Except String α :=
  Except.ok result

/-- `GET /api/v1/storage/stats`. -/
def getStorageStats {α : Type} (status : Nat) (_body : ErrorBody) (result : α) :
    Except String α :=
  if respOk status then Except.ok result
  else Except.error "Failed to get storage statistics"

end ContentAPI

/-! ## ReviewActions (`PracticeProblemsPanel.tsx`) and the review page's
status state (`src/app/review/[packageId]/page.tsx`) -/

/-- The status argument of `ReviewActions.handleStatusUpdate`:
`'approved' | 'rejected' | 'needs_revision'`. -/
inductive ReviewDecision where
  | approved
  | rejected
  | needs_revision
deriving DecidableEq, Repr

/-- The status string the decision serialises to. -/
def ReviewDecision.statusString : ReviewDecision → String
  | ReviewDecision.approved => "approved"
  | ReviewDecision.rejected => "rejected"
  | ReviewDecision.needs_revision => "needs_revision"

namespace ReviewActions

/-- Mock reviewer id hard-coded in the component. -/
def reviewerId : String := "educator_123"

/-- `getDefaultMessage` of `ReviewActions`. -/
def getDefaultMessage (status : String) : String :=
  if status = "approved" then "Package approved for publication"
  else if status = "rejected" then "Package rejected - needs significant improvements"
  else if status = "needs_revision" then "Package needs minor revisions before approval"
  else "Status updated"

/-- The success alert template of `handleStatusUpdate`. -/
def successAlert (d : ReviewDecision) : String :=
  "Package " ++
    (match d with
     | ReviewDecision.approved => "approved"
     | ReviewDecision.rejected => "rejected"
     | ReviewDecision.needs_revision => "marked for revision") ++
    " successfully!"

/-- Observable outcome of one `handleStatusUpdate` call: the status-update
body put on the wire (`none` when the call is rejected client-side), the
`alert(...)` shown, and the page's `currentStatus` afterwards (the parent's
`onStatusUpdate` handler is `setCurrentStatus`). -/
structure StatusUpdateRun where
  requestSent : Option ReviewStatusUpdate
  alertShown : Option String
  finalStatus : String
deriving DecidableEq, Repr

/-- `ReviewActions.handleStatusUpdate(status, notes)` against a server whose
reply is (`respStatus`, `body`, `result`), starting from the page holding
`current` as its status.  On success the component calls
`onStatusUpdate(status)` — the requested value — which the page stores. -/
def handleStatusUpdate (current : String) (d : ReviewDecision) (notes : String)
    (respStatus : Nat) (body : ErrorBody) (result : StatusUpdateResponse) :
    StatusUpdateRun :=
  if jsTrim notes = "" ∧ d ≠ ReviewDecision.approved then
    { requestSent := none, alertShown := some "Please provide review notes",
      finalStatus := current }
  else
    let sent : ReviewStatusUpdate :=
      { status := d.statusString, reviewer_id := reviewerId,
        notes := jsOrString (jsTrim notes) (getDefaultMessage d.statusString) }
    match ContentAPI.updatePackageStatus respStatus body result with
    | Except.ok _ =>
        { requestSent := some sent, alertShown := some (successAlert d),
          finalStatus := d.statusString }
    | Except.error e =>
        { requestSent := some sent,
          alertShown := some ("Failed to " ++ d.statusString ++ " package: " ++ e),
          finalStatus := current }

end ReviewActions

/-! ## RevisionDialog (`components/RevisionDialog.tsx`) and the review
page's `handleRevisionRequest` -/

namespace RevisionDialog

/-- Observable outcome of `handleSubmit`: the `onSubmit(feedback, priority)`
invocation if any, and any error shown to the user (the handler contains no
error-display call — empty feedback is ignored silently). -/
structure SubmitResult where
  submitted : Option (String × Priority)
  alertShown : Option String
deriving DecidableEq, Repr

/-- `handleSubmit`: `if (feedback.trim()) { onSubmit(feedback, priority); }`
— note it forwards the raw, untrimmed feedback. -/
def handleSubmit (feedback : String) (priority : Priority) : SubmitResult :=
  if jsTrim feedback = "" then
    { submitted := none, alertShown := none }
  else
    { submitted := some (feedback, priority), alertShown := none }

/-- The submit button's `disabled={!feedback.trim() || isSubmitting}`. -/
def submitDisabled (feedback : String) (isSubmitting : Bool) : Bool :=
  decide (jsTrim feedback = "") || isSubmitting

end RevisionDialog

/-- `handleRevisionRequest` of the review page: wraps one component's
feedback in a singleton `revisions` array and issues one PUT. -/
def handleRevisionRequest (packageId subject unit : String)
    (componentType : ComponentType) (feedback : String) (priority : Priority) :
    RevisionRequest :=
  ContentAPI.reviseRequestBody packageId subject unit
    [{ component_type := componentType, feedback := feedback, priority := priority }]
    (some "educator_123")

/-- The PUT requests issued for one user submission through the dialog:
empty when `handleSubmit` swallows it, otherwise exactly the one request. -/
def revisionRequests (packageId subject unit : String) (componentType : ComponentType)
    (feedback : String) (priority : Priority) : List RevisionRequest :=
  match (RevisionDialog.handleSubmit feedback priority).submitted with
  | none => []
  | some fp => [handleRevisionRequest packageId subject unit componentType fp.1 fp.2]

/-! ## Polling primitive (`hooks/usePolling.ts`) -/

namespace Polling

/-- Timer/enabled state of one `usePolling` instance: the `enabled`
argument and whether `intervalRef` currently holds a scheduled interval. -/
structure PollState where
  enabled : Bool
  intervalActive : Bool
deriving DecidableEq, Repr

/-- Events acting on the hook.  `enable`/`disable` are the effect runs
triggered by the `enabled` prop changing (`startPolling`/`stopPolling`),
`timerFire` a tick of the scheduled interval, `refresh` the exposed
out-of-band fetch, `unmount` the effect cleanup. -/
inductive PollEvent where
  | enable
  | disable
  | timerFire
  | refresh
  | unmount
deriving DecidableEq, Repr

/-- One event step.  The boolean records whether the producer (`fetchFn`)
was invoked: `fetchData` begins with `if (!enabled) return`, so the
producer runs exactly when the guard passes.  `stopPolling` clears the
interval; `startPolling` performs an immediate fetch and (re)schedules. -/
def pollStep (st : PollState) (e : PollEvent) : PollState × Bool :=
  match e with
  | PollEvent.enable => ({ enabled := true, intervalActive := true }, true)
  | PollEvent.disable => ({ enabled := false, intervalActive := false }, false)
  | PollEvent.timerFire => (st, st.intervalActive && st.enabled)
  | PollEvent.refresh => (st, st.enabled)
  | PollEvent.unmount => ({ st with intervalActive := false }, false)

/-- Run a sequence of events, counting producer invocations. -/
def runPoll (st : PollState) : List PollEvent → PollState × Nat
  | [] => (st, 0)
  | e :: rest =>
      let step := pollStep st e
      let tail := runPoll step.1 rest
      (tail.1, (if step.2 then 1 else 0) + tail.2)

end Polling

/-! ## Generation Progress Tracker (`GenerationProgress.tsx`) -/

namespace Tracker

/-- `GENERATION_STAGES.length` in the component. -/
def stageCount : Nat := 7

/-- Component + hook state driving the tracker: `isComplete`,
`currentStage`, the component's `error`, and the polling hook's
`error`/`data`.  `completions` counts `onComplete` invocations. -/
structure TrackerState where
  isComplete : Bool
  currentStage : Nat
  trackerError : Option String
  pollError : Option String
  pollData : Option ContentPackage
  completions : Nat
deriving DecidableEq, Repr

/-- Initial state on mount. -/
def trackerInit : TrackerState :=
  { isComplete := false, currentStage := 0, trackerError := none,
    pollError := none, pollData := none, completions := 0 }

/-- The polling producer: fetch the package; a thrown message containing
`"not found"` is converted to a `null` result (still generating), anything
else re-thrown. -/
def producer (status : Nat) (body : ErrorBody) (pkg : ContentPackage) :
    Except String (Option ContentPackage) :=
  match ContentAPI.getContentPackage status body pkg with
  | Except.ok p => Except.ok (some p)
  | Except.error msg =>
      if jsIncludes msg "not found" then Except.ok none else Except.error msg

/-- Events: a completed poll round-trip (with the package-fetch response it
observed) or a tick of the simulated-stage timer. -/
inductive TrackerEvent where
  | poll (status : Nat) (body : ErrorBody) (pkg : ContentPackage)
  | stageTick
deriving DecidableEq, Repr

/-- One event step.  Poll rounds are dropped once `isComplete` (polling is
enabled by `!isComplete`, and the interval is torn down); so is the stage
timer.  A successful fetch sets data and clears the hook error; the
completion effect fires when data is truthy and `isComplete` is not yet
set; a failed fetch sets the hook error, copied into the component error
by the `pollError` effect. -/
def trackerStep (st : TrackerState) (e : TrackerEvent) : TrackerState :=
  match e with
  | TrackerEvent.stageTick =>
      if st.isComplete then st
      else { st with currentStage :=
               if st.currentStage < stageCount - 1 then st.currentStage + 1
               else st.currentStage }
  | TrackerEvent.poll status body pkg =>
      if st.isComplete then st
      else
        match producer status body pkg with
        | Except.error msg =>
            { st with pollError := some msg, trackerError := some msg }
        | Except.ok v =>
            match v with
            | some p =>
                { st with
                  pollData := some p
                  pollError := none
                  isComplete := true
                  currentStage := stageCount
                  completions := st.completions + 1 }
            | none =>
                { st with pollData := none, pollError := none }

/-- Run the tracker over a sequence of events. -/
def runTracker (st : TrackerState) : List TrackerEvent → TrackerState
  | [] => st
  | e :: rest => runTracker (trackerStep st e) rest

end Tracker

/-! ## Shared content context (`lib/context.tsx`) -/

namespace ContentProvider

/-- `deletePackage` of the `ContentProvider`: on a fulfilled
`deleteContentPackage` with `true`, filter the cached list by id; on
`false`, throw `'Failed to delete package'` leaving the cache untouched.
Returns the cache afterwards and the operation's outcome. -/
def deletePackage (packages : List ContentPackage) (packageId : String)
    (status : Nat) (body : ErrorBody) : List ContentPackage × Except String Unit :=
  match ContentAPI.deleteContentPackage status body with
  | Except.ok true =>
      (packages.filter (fun pkg => pkg.id ≠ packageId), Except.ok ())
  | Except.ok false => (packages, Except.error "Failed to delete package")
  | Except.error e => (packages, Except.error e)

end ContentProvider

/-! ## Sample data for witnesses and counterexamples -/

/-- A concrete package used to instantiate universally quantified
theorems. -/
def samplePackage : ContentPackage :=
  { id := "pkg_123", subject := "math", unit := "algebra", status := "generated" }

/-- A second package with a different id. -/
def otherPackage : ContentPackage :=
  { id := "pkg_456", subject := "math", unit := "algebra", status := "generated" }

/-- A concrete status-update response whose `new_status` differs from any
value a reviewer can request. -/
def sampleStatusResponse : StatusUpdateResponse :=
  { message := "Package status updated successfully", package_id := "pkg_123",
    old_status := "under_review", new_status := "rejected",
    updated_at := "2024-01-01T00:00:00Z", package := samplePackage }

/-! ## Claim C1 -/

/-- Claim C1 as stated is false: after a successful status update the page
holds the status the reviewer requested, not the response's `new_status`.
Concretely, requesting `approved` against a server that answers 200 with
`new_status = "rejected"` leaves the local status at `"approved"`. -/
theorem C1_counterexample :
    ContentAPI.updatePackageStatus 200 (ErrorBody.parsed none) sampleStatusResponse
      = Except.ok sampleStatusResponse
    ∧ (ReviewActions.handleStatusUpdate "under_review" ReviewDecision.approved
        "Looks good" 200 (ErrorBody.parsed none) sampleStatusResponse).finalStatus
      = "approved"
    ∧ sampleStatusResponse.new_status = "rejected"
    ∧ ("approved" : String) ≠ "rejected" :=
  ⟨rfl, rfl, rfl, by decide⟩

/-- Claim C1 (amended): for every status update that passes the client-side
notes check and whose API call succeeds, the locally held status equals the
status value the caller requested; it equals the server's `new_status` field
only when the server echoes the requested value. -/
theorem C1_final_status_is_requested (current : String) (d : ReviewDecision)
    (notes : String) (rs : Nat) (body : ErrorBody) (result : StatusUpdateResponse)
    (hguard : ¬(jsTrim notes = "" ∧ d ≠ ReviewDecision.approved))
    (hok : respOk rs = true) :
    (ReviewActions.handleStatusUpdate current d notes rs body result).finalStatus
      = d.statusString
    ∧ ((ReviewActions.handleStatusUpdate current d notes rs body result).finalStatus
        = result.new_status ↔ d.statusString = result.new_status) := by
  unfold ReviewActions.handleStatusUpdate
  rw [if_neg hguard]
  unfold ContentAPI.updatePackageStatus
  rw [if_pos hok]
  exact ⟨rfl, Iff.rfl⟩

/-- Witness for `C1_final_status_is_requested` at a concrete input. -/
theorem C1_witness :
    (ReviewActions.handleStatusUpdate "under_review" ReviewDecision.rejected
      "too terse" 200 (ErrorBody.parsed none) sampleStatusResponse).finalStatus
      = "needs_revision" ∨
    (ReviewActions.handleStatusUpdate "under_review" ReviewDecision.rejected
      "too terse" 200 (ErrorBody.parsed none) sampleStatusResponse).finalStatus
      = "rejected" :=
  Or.inr
    (C1_final_status_is_requested "under_review" ReviewDecision.rejected "too terse"
      200 (ErrorBody.parsed none) sampleStatusResponse (by decide) (by decide)).1

/-! ## Claim C2 -/

/-- Claim C2 as stated is false: `deleteContentPackage` maps a non-2xx
response to the ordinary value `false` rather than an error, `healthCheck`
fulfils regardless of the status, and `listContentPackages` ignores a
server-supplied `detail` field, raising its fixed fallback instead. -/
theorem C2_counterexample :
    respOk 500 = false
    ∧ ContentAPI.deleteContentPackage 500 (ErrorBody.parsed (some "server exploded"))
        = Except.ok false
    ∧ ContentAPI.healthCheck 500 (ErrorBody.parsed (some "server exploded")) ()
        = Except.ok ()
    ∧ ContentAPI.listContentPackages 500 (ErrorBody.parsed (some "server exploded")) []
        = Except.error "Failed to list content packages"
    ∧ ("Failed to list content packages" : String) ≠ "server exploded" :=
  ⟨rfl, rfl, rfl, rfl, by decide⟩

/-- Claim C2 (amended): on a non-2xx response, every API-client operation
except two raises an error.  The five endpoints that parse the error body
(`generateContent`, `generateContentEnhanced`, `loadCurriculumData`,
`reviseContentPackage`, `updatePackageStatus`) use the server's `detail`
when present, else their endpoint-specific fallback; the remaining
endpoints raise fixed endpoint-specific messages without reading `detail`;
lookups distinguish 404 with a not-found message; `getRevisionHistory`
maps 404 to an empty list.  The exceptions: `deleteContentPackage`
resolves with `false` and `healthCheck` resolves with the parsed body. -/
theorem C2_error_contract {α : Type} (s : Nat) (body : ErrorBody) (x : α)
    (pkg : ContentPackage) (pkgs : List ContentPackage)
    (hist : List RevisionHistory) (result : StatusUpdateResponse)
    (subject : String) (hs : respOk s = false) :
    ContentAPI.generateContent s body pkg
      = Except.error (detailMessage body "Generation failed" "Failed to generate content")
    ∧ ContentAPI.generateContentEnhanced s body pkg
      = Except.error (detailMessage body "Enhanced generation failed" "Failed to generate enhanced content")
    ∧ ContentAPI.loadCurriculumData s body x
      = Except.error (detailMessage body "Curriculum load failed" "Failed to load curriculum")
    ∧ ContentAPI.reviseContentPackage s body pkg
      = Except.error (detailMessage body "Revision failed" "Failed to revise content package")
    ∧ ContentAPI.updatePackageStatus s body result
      = Except.error (detailMessage body "Status update failed" "Failed to update package status")
    ∧ ContentAPI.getCurriculumStatus s body x = Except.error "Failed to get curriculum status"
    ∧ ContentAPI.getSubjects s body x = Except.error "Failed to get subjects"
    ∧ ContentAPI.getGrades s body x = Except.error "Failed to get grades"
    ∧ ContentAPI.browseCurriculum s body x = Except.error "Failed to browse curriculum"
    ∧ ContentAPI.getLearningPath s body x = Except.error "Failed to get learning path"
    ∧ ContentAPI.getSubskillPath s body x = Except.error "Failed to get subskill path"
    ∧ ContentAPI.listContentPackages s body pkgs = Except.error "Failed to list content packages"
    ∧ ContentAPI.getReviewQueue s body pkgs = Except.error "Failed to get packages for review"
    ∧ ContentAPI.getStorageStats s body x = Except.error "Failed to get storage statistics"
    ∧ ContentAPI.getPackagesBySubject s body subject x
      = Except.error ("Failed to get packages for " ++ subject)
    ∧ ContentAPI.getContentPackage s body pkg
      = (if s = 404 then Except.error "Content package not found"
         else Except.error "Failed to retrieve content package")
    ∧ ContentAPI.getCurriculumContext s body x
      = (if s = 404 then Except.error "Subskill not found in curriculum"
         else Except.error "Failed to get curriculum context")
    ∧ ContentAPI.getPackageReviewInfo s body x
      = (if s = 404 then Except.error "Package not found"
         else Except.error "Failed to get package review info")
    ∧ ContentAPI.getRevisionHistory s body hist
      = (if s = 404 then Except.ok [] else Except.error "Failed to get revision history")
    ∧ ContentAPI.deleteContentPackage s body = Except.ok false
    ∧ ContentAPI.healthCheck s body x = Except.ok x := by
  refine ⟨?_, ?_, ?_, ?_, ?_, ?_, ?_, ?_, ?_, ?_, ?_, ?_, ?_, ?_, ?_, ?_, ?_, ?_, ?_, ?_, ?_⟩ <;>
    simp [ContentAPI.generateContent, ContentAPI.generateContentEnhanced,
      ContentAPI.loadCurriculumData, ContentAPI.reviseContentPackage,
      ContentAPI.updatePackageStatus, ContentAPI.getCurriculumStatus,
      ContentAPI.getSubjects, ContentAPI.getGrades, ContentAPI.browseCurriculum,
      ContentAPI.getLearningPath, ContentAPI.getSubskillPath,
      ContentAPI.listContentPackages, ContentAPI.getReviewQueue,
      ContentAPI.getStorageStats, ContentAPI.getPackagesBySubject,
      ContentAPI.getContentPackage, ContentAPI.getCurriculumContext,
      ContentAPI.getPackageReviewInfo, ContentAPI.getRevisionHistory,
      ContentAPI.deleteContentPackage, ContentAPI.healthCheck, hs]

/-- Witness for `C2_error_contract` at status 500 with a detail-bearing
body: the status-update endpoint surfaces the server's detail verbatim. -/
theorem C2_witness :
    ContentAPI.updatePackageStatus 500 (ErrorBody.parsed (some "quota exceeded"))
      sampleStatusResponse = Except.error "quota exceeded" :=
  (C2_error_contract 500 (ErrorBody.parsed (some "quota exceeded")) ()
    samplePackage [] [] sampleStatusResponse "math" (by decide)).2.2.2.2.1

/-! ## Claim C3 -/

/-- Claim C3: a status-update attempt whose requested status is not
`approved` and whose notes trim to empty is rejected client-side with
"Please provide review notes", no request body is put on the wire, and the
locally held status is unchanged. -/
theorem C3_notes_required (current : String) (d : ReviewDecision) (notes : String)
    (rs : Nat) (body : ErrorBody) (result : StatusUpdateResponse)
    (hempty : jsTrim notes = "") (hd : d ≠ ReviewDecision.approved) :
    ReviewActions.handleStatusUpdate current d notes rs body result =
      { requestSent := none
        alertShown := some "Please provide review notes"
        finalStatus := current } := by
  unfold ReviewActions.handleStatusUpdate
  rw [if_pos ⟨hempty, hd⟩]

/-- Witness for `C3_notes_required`: rejecting with whitespace-only notes. -/
theorem C3_witness :
    ReviewActions.handleStatusUpdate "generated" ReviewDecision.rejected "   "
      200 (ErrorBody.parsed none) sampleStatusResponse =
      { requestSent := none
        alertShown := some "Please provide review notes"
        finalStatus := "generated" } :=
  C3_notes_required "generated" ReviewDecision.rejected "   " 200
    (ErrorBody.parsed none) sampleStatusResponse rfl (by decide)

/-! ## Claim C4 -/

/-- Claim C4 as stated is false in its error-surfacing clause: a
whitespace-only feedback submission issues no network request, but no
error is surfaced either — `handleSubmit` returns silently (the submit
button is disabled instead). -/
theorem C4_counterexample :
    jsTrim "   " = ""
    ∧ revisionRequests "pkg_123" "math" "algebra" ComponentType.visual "   "
        Priority.medium = []
    ∧ (RevisionDialog.handleSubmit "   " Priority.medium).alertShown = none
    ∧ RevisionDialog.submitDisabled "   " false = true :=
  ⟨rfl, rfl, rfl, rfl⟩

/-- Claim C4 (amended): a revision submission whose feedback trims to empty
issues no network request and is silently ignored — the submit control is
disabled and no error message is shown; a submission with non-empty trimmed
feedback issues exactly one request whose `revisions` array is the
singleton carrying that (untrimmed) feedback and the chosen priority. -/
theorem C4_feedback_gate (pid subj u : String) (ct : ComponentType)
    (fb : String) (pr : Priority) :
    (jsTrim fb = "" →
      revisionRequests pid subj u ct fb pr = []
      ∧ RevisionDialog.handleSubmit fb pr = { submitted := none, alertShown := none }
      ∧ RevisionDialog.submitDisabled fb false = true)
    ∧ (jsTrim fb ≠ "" →
      revisionRequests pid subj u ct fb pr =
        [ContentAPI.reviseRequestBody pid subj u
          [{ component_type := ct, feedback := fb, priority := pr }]
          (some "educator_123")]) := by
  constructor
  · intro h
    refine ⟨?_, ?_, ?_⟩ <;>
      simp [revisionRequests, RevisionDialog.handleSubmit,
        RevisionDialog.submitDisabled, h]
  · intro h
    simp [revisionRequests, RevisionDialog.handleSubmit, handleRevisionRequest, h]

/-- Witness for `C4_feedback_gate`: the spec's own scenario, visual
component feedback "add animation" at high priority. -/
theorem C4_witness :
    revisionRequests "pkg_123" "math" "algebra" ComponentType.visual
      "add animation" Priority.high =
      [ContentAPI.reviseRequestBody "pkg_123" "math" "algebra"
        [{ component_type := ComponentType.visual, feedback := "add animation",
           priority := Priority.high }]
        (some "educator_123")] :=
  (C4_feedback_gate "pkg_123" "math" "algebra" ComponentType.visual
    "add animation" Priority.high).2 (by decide)

/-! ## Claim C5 -/

/-- Claim C5: a revision-history fetch answered 404 yields the empty list
(a fulfilled promise, so never an error and never a null value); any other
non-2xx response raises the fixed history error. -/
theorem C5_revision_history_404 (body : ErrorBody) (hist : List RevisionHistory) :
    ContentAPI.getRevisionHistory 404 body hist = Except.ok []
    ∧ ∀ s : Nat, respOk s = false → s ≠ 404 →
        ContentAPI.getRevisionHistory s body hist
          = Except.error "Failed to get revision history" := by
  constructor
  · rfl
  · intro s h1 h2
    simp [ContentAPI.getRevisionHistory, h1, h2]

/-- Witness for `C5_revision_history_404` at concrete responses. -/
theorem C5_witness :
    ContentAPI.getRevisionHistory 404 ErrorBody.unparsable [] = Except.ok []
    ∧ ContentAPI.getRevisionHistory 500 ErrorBody.unparsable []
        = Except.error "Failed to get revision history" :=
  ⟨(C5_revision_history_404 ErrorBody.unparsable []).1,
   (C5_revision_history_404 ErrorBody.unparsable []).2 500 (by decide) (by decide)⟩

/-! ## Claim C6 -/

/-- Claim C6: a package-fetch poll answered 404 makes the producer yield
`null` — data is set to `null`, the hook error is cleared, the component
error is untouched and `isComplete` stays `false`, so polling stays
enabled; any other failing status is re-thrown and lands in both the hook
error and the tracker's error state, also without completing. -/
theorem C6_not_found_still_generating :
    (∀ (body : ErrorBody) (pkg : ContentPackage),
       Tracker.producer 404 body pkg = Except.ok none)
    ∧ (∀ (st : Tracker.TrackerState) (body : ErrorBody) (pkg : ContentPackage),
       st.isComplete = false →
       Tracker.trackerStep st (Tracker.TrackerEvent.poll 404 body pkg)
         = { st with pollData := none, pollError := none })
    ∧ (∀ (st : Tracker.TrackerState) (s : Nat) (body : ErrorBody) (pkg : ContentPackage),
       st.isComplete = false → respOk s = false → s ≠ 404 →
       Tracker.trackerStep st (Tracker.TrackerEvent.poll s body pkg)
         = { st with pollError := some "Failed to retrieve content package", trackerError := some "Failed to retrieve content package" }) := by
  refine ⟨fun _ _ => rfl, ?_, ?_⟩
  · intro st body pkg h
    have hp : Tracker.producer 404 body pkg = Except.ok none := rfl
    simp [Tracker.trackerStep, h, hp]
  · intro st s body pkg h1 h2 h3
    have hg : ContentAPI.getContentPackage s body pkg
        = Except.error "Failed to retrieve content package" := by
      simp [ContentAPI.getContentPackage, h2, h3]
    have hp : Tracker.producer s body pkg
        = Except.error "Failed to retrieve content package" := by
      unfold Tracker.producer
      rw [hg]
      rfl
    simp [Tracker.trackerStep, h1, hp]


/-- Witness for `C6_not_found_still_generating`: from the initial state, a
404 poll leaves the tracker exactly where it was, while a 500 poll records
the fetch error. -/
theorem C6_witness :
    Tracker.trackerStep Tracker.trackerInit
        (Tracker.TrackerEvent.poll 404 ErrorBody.unparsable samplePackage)
      = { Tracker.trackerInit with pollData := none, pollError := none }
    ∧ Tracker.trackerStep Tracker.trackerInit
        (Tracker.TrackerEvent.poll 500 ErrorBody.unparsable samplePackage)
      = { Tracker.trackerInit with pollError := some "Failed to retrieve content package", trackerError := some "Failed to retrieve content package" } :=
  ⟨C6_not_found_still_generating.2.1 Tracker.trackerInit ErrorBody.unparsable
     samplePackage rfl,
   C6_not_found_still_generating.2.2 Tracker.trackerInit 500 ErrorBody.unparsable
     samplePackage rfl (by decide) (by decide)⟩

/-! ## Claim C7 -/

/-- Completion is sticky: no event resets `isComplete`. -/
lemma tracker_complete_sticky (st : Tracker.TrackerState) (e : Tracker.TrackerEvent)
    (h : st.isComplete = true) : (Tracker.trackerStep st e).isComplete = true := by
  cases e <;> simp [Tracker.trackerStep, h]

/-- Running any further events keeps a completed tracker completed. -/
lemma runTracker_sticky (evs : List Tracker.TrackerEvent) (st : Tracker.TrackerState)
    (h : st.isComplete = true) : (Tracker.runTracker st evs).isComplete = true := by
  induction evs generalizing st with
  | nil => exact h
  | cons e rest ih => exact ih _ (tracker_complete_sticky st e h)

/-- A successful fetch from an incomplete state completes immediately
(whatever the simulated stage index was) and fires the callback once. -/
lemma tracker_step_success (st : Tracker.TrackerState) (s : Nat) (body : ErrorBody)
    (pkg : ContentPackage) (h1 : st.isComplete = false) (h2 : respOk s = true) :
    Tracker.trackerStep st (Tracker.TrackerEvent.poll s body pkg)
      = { st with
          pollData := some pkg
          pollError := none
          isComplete := true
          currentStage := Tracker.stageCount
          completions := st.completions + 1 } := by
  have hp : Tracker.producer s body pkg = Except.ok (some pkg) := by
    unfold Tracker.producer ContentAPI.getContentPackage
    rw [if_pos h2]
  simp [Tracker.trackerStep, h1, hp]

/-- The reachable-state invariant tying the callback count to completion. -/
def TrackerInv (st : Tracker.TrackerState) : Prop :=
  st.completions = (if st.isComplete then 1 else 0)

/-- Every event preserves the callback-count invariant. -/
lemma tracker_step_inv (st : Tracker.TrackerState) (e : Tracker.TrackerEvent)
    (h : TrackerInv st) : TrackerInv (Tracker.trackerStep st e) := by
  cases e with
  | stageTick =>
      by_cases hc : st.isComplete = true <;>
        simp_all [Tracker.trackerStep, TrackerInv]
  | poll s body pkg =>
      by_cases hc : st.isComplete = true
      · simpa [Tracker.trackerStep, hc] using h
      · have hc' : st.isComplete = false := by simpa using hc
        cases hp : Tracker.producer s body pkg with
        | error msg => simp_all [Tracker.trackerStep, TrackerInv, hc', hp]
        | ok v =>
            cases v with
            | some p => simp_all [Tracker.trackerStep, TrackerInv, hc', hp]
            | none => simp_all [Tracker.trackerStep, TrackerInv, hc', hp]

/-- The invariant holds after any run from the initial state. -/
lemma runTracker_inv (evs : List Tracker.TrackerEvent) (st : Tracker.TrackerState)
    (h : TrackerInv st) : TrackerInv (Tracker.runTracker st evs) := by
  induction evs generalizing st with
  | nil => exact h
  | cons e rest ih => exact ih _ (tracker_step_inv st e h)

/-- A run containing a successful poll ends completed. -/
lemma runTracker_completes (evs : List Tracker.TrackerEvent) (st : Tracker.TrackerState)
    (h : ∃ s body pkg, Tracker.TrackerEvent.poll s body pkg ∈ evs ∧ respOk s = true) :
    (Tracker.runTracker st evs).isComplete = true := by
  induction evs generalizing st with
  | nil =>
      rcases h with ⟨s, body, pkg, hm, _⟩
      cases hm
  | cons e rest ih =>
      rcases h with ⟨s, body, pkg, hm, hok⟩
      rcases List.mem_cons.mp hm with he | hr
      · subst he
        by_cases hc : st.isComplete = true
        · exact runTracker_sticky rest _ (tracker_complete_sticky st _ hc)
        · have hc' : st.isComplete = false := by simpa using hc
          have hstep := tracker_step_success st s body pkg hc' hok
          show (Tracker.runTracker
            (Tracker.trackerStep st (Tracker.TrackerEvent.poll s body pkg)) rest).isComplete = true
          exact runTracker_sticky rest _ (by rw [hstep])
      · exact ih _ ⟨s, body, pkg, hr, hok⟩

/-- Claim C7: a successful fetch from any incomplete state (any simulated
stage index) completes immediately and fires the callback; over any whole
run from the initial state the callback fires at most once, and exactly
once as soon as some poll in the run succeeded. -/
theorem C7_completion_exactly_once :
    (∀ (st : Tracker.TrackerState) (s : Nat) (body : ErrorBody) (pkg : ContentPackage),
       st.isComplete = false → respOk s = true →
       (Tracker.trackerStep st (Tracker.TrackerEvent.poll s body pkg)).isComplete = true
       ∧ (Tracker.trackerStep st (Tracker.TrackerEvent.poll s body pkg)).completions
           = st.completions + 1)
    ∧ (∀ evs : List Tracker.TrackerEvent,
       (Tracker.runTracker Tracker.trackerInit evs).completions ≤ 1)
    ∧ (∀ evs : List Tracker.TrackerEvent,
       (∃ s body pkg, Tracker.TrackerEvent.poll s body pkg ∈ evs ∧ respOk s = true) →
       (Tracker.runTracker Tracker.trackerInit evs).isComplete = true
       ∧ (Tracker.runTracker Tracker.trackerInit evs).completions = 1) := by
  have hinit : TrackerInv Tracker.trackerInit := rfl
  refine ⟨?_, ?_, ?_⟩
  · intro st s body pkg h1 h2
    rw [tracker_step_success st s body pkg h1 h2]
    exact ⟨rfl, rfl⟩
  · intro evs
    have h := runTracker_inv evs Tracker.trackerInit hinit
    unfold TrackerInv at h
    rw [h]
    split <;> simp
  · intro evs hex
    have hc := runTracker_completes evs Tracker.trackerInit hex
    have h := runTracker_inv evs Tracker.trackerInit hinit
    unfold TrackerInv at h
    rw [hc] at h
    exact ⟨hc, by simpa using h⟩

/-- Witness for `C7_completion_exactly_once`: a run with a tick and two
successful polls completes with the callback fired exactly once. -/
theorem C7_witness :
    (Tracker.runTracker Tracker.trackerInit
      [Tracker.TrackerEvent.stageTick,
       Tracker.TrackerEvent.poll 200 ErrorBody.unparsable samplePackage,
       Tracker.TrackerEvent.poll 200 ErrorBody.unparsable samplePackage]).isComplete = true
    ∧ (Tracker.runTracker Tracker.trackerInit
      [Tracker.TrackerEvent.stageTick,
       Tracker.TrackerEvent.poll 200 ErrorBody.unparsable samplePackage,
       Tracker.TrackerEvent.poll 200 ErrorBody.unparsable samplePackage]).completions = 1 :=
  C7_completion_exactly_once.2.2
    [Tracker.TrackerEvent.stageTick,
     Tracker.TrackerEvent.poll 200 ErrorBody.unparsable samplePackage,
     Tracker.TrackerEvent.poll 200 ErrorBody.unparsable samplePackage]
    ⟨200, ErrorBody.unparsable, samplePackage, by simp, by decide⟩

/-! ## Claim C8 -/

/-- While the hook is disabled, no event short of a re-enable invokes the
producer or re-enables the hook. -/
lemma poll_step_disabled (st : Polling.PollState) (e : Polling.PollEvent)
    (h : st.enabled = false) (he : e ≠ Polling.PollEvent.enable) :
    (Polling.pollStep st e).1.enabled = false ∧ (Polling.pollStep st e).2 = false := by
  cases e with
  | enable => exact absurd rfl he
  | disable => exact ⟨rfl, rfl⟩
  | timerFire => exact ⟨h, by simp [Polling.pollStep, h]⟩
  | refresh => exact ⟨h, by simp [Polling.pollStep, h]⟩
  | unmount => exact ⟨h, rfl⟩

/-- A disabled hook invokes the producer zero times over any enable-free
event sequence. -/
lemma runPoll_disabled (evs : List Polling.PollEvent) (st : Polling.PollState)
    (h : st.enabled = false) (hne : Polling.PollEvent.enable ∉ evs) :
    (Polling.runPoll st evs).2 = 0 := by
  induction evs generalizing st with
  | nil => rfl
  | cons e rest ih =>
      have hsplit : Polling.PollEvent.enable ≠ e ∧ Polling.PollEvent.enable ∉ rest := by
        simpa [List.mem_cons, not_or] using hne
      have hstep := poll_step_disabled st e h (Ne.symm hsplit.1)
      simp [Polling.runPoll, hstep.2, ih _ hstep.1 hsplit.2]

/-- Claim C8: disabling the hook clears the scheduled interval (as does the
effect cleanup on unmount), and from the disable point onward no producer
invocation occurs across any sequence of timer fires, refreshes, repeated
disables or unmounts — only an explicit re-enable could restart it. -/
theorem C8_teardown_stops_producer :
    (∀ st : Polling.PollState,
       Polling.pollStep st Polling.PollEvent.disable
         = ({ enabled := false, intervalActive := false }, false))
    ∧ (∀ st : Polling.PollState,
       (Polling.pollStep st Polling.PollEvent.unmount).1.intervalActive = false
       ∧ (Polling.pollStep st Polling.PollEvent.unmount).2 = false)
    ∧ (∀ (st : Polling.PollState) (evs : List Polling.PollEvent),
       Polling.PollEvent.enable ∉ evs →
       (Polling.runPoll (Polling.pollStep st Polling.PollEvent.disable).1 evs).2 = 0) := by
  refine ⟨fun st => rfl, fun st => ⟨rfl, rfl⟩, ?_⟩
  intro st evs hne
  exact runPoll_disabled evs _ rfl hne

/-- Witness for `C8_teardown_stops_producer`: after a disable, a burst of
timer fires, refreshes and an unmount invokes the producer zero times. -/
theorem C8_witness :
    (Polling.runPoll
      (Polling.pollStep { enabled := true, intervalActive := true }
        Polling.PollEvent.disable).1
      [Polling.PollEvent.timerFire, Polling.PollEvent.refresh,
       Polling.PollEvent.timerFire, Polling.PollEvent.unmount,
       Polling.PollEvent.timerFire]).2 = 0 :=
  C8_teardown_stops_producer.2.2 { enabled := true, intervalActive := true }
    [Polling.PollEvent.timerFire, Polling.PollEvent.refresh,
     Polling.PollEvent.timerFire, Polling.PollEvent.unmount,
     Polling.PollEvent.timerFire] (by decide)

/-! ## Claim C9 -/

/-- Claim C9 as stated is false for one path: `approvePackage` substitutes
the default message only for falsy notes (absent or the empty string);
whitespace-only notes — empty after trimming — are forwarded unchanged. -/
theorem C9_counterexample :
    jsTrim "   " = ""
    ∧ (ContentAPI.approvePackage "pkg_123" "math" "algebra" "educator_123"
        (some "   ") 200 (ErrorBody.parsed none) sampleStatusResponse).1.notes = "   "
    ∧ ("   " : String) ≠ "Package approved for publication" :=
  ⟨rfl, rfl, by decide⟩

/-- Claim C9 (amended): an approval with no notes is never rejected and
proceeds with the default message "Package approved for publication" — in
the review dialog for any notes that trim to empty, and in
`approvePackage` for absent or empty-string notes; `approvePackage`
forwards non-empty (incl. whitespace-only) notes verbatim. -/
theorem C9_approval_default_notes :
    (∀ (current notes : String) (rs : Nat) (body : ErrorBody)
       (result : StatusUpdateResponse),
       jsTrim notes = "" →
       (ReviewActions.handleStatusUpdate current ReviewDecision.approved notes
          rs body result).requestSent
         = some { status := "approved", reviewer_id := "educator_123", notes := "Package approved for publication" })
    ∧ (∀ (pid subj u rid : String) (rs : Nat) (body : ErrorBody)
       (result : StatusUpdateResponse),
       (ContentAPI.approvePackage pid subj u rid none rs body result).1
         = { status := "approved", reviewer_id := rid, notes := "Package approved for publication" }
       ∧ (ContentAPI.approvePackage pid subj u rid (some "") rs body result).1
         = { status := "approved", reviewer_id := rid, notes := "Package approved for publication" })
    ∧ (∀ (pid subj u rid ns : String) (rs : Nat) (body : ErrorBody)
       (result : StatusUpdateResponse),
       ns ≠ "" →
       (ContentAPI.approvePackage pid subj u rid (some ns) rs body result).1.notes = ns) := by
  refine ⟨?_, ?_, ?_⟩
  · intro current notes rs body result h
    unfold ReviewActions.handleStatusUpdate
    rw [if_neg (by simp)]
    cases hr : ContentAPI.updatePackageStatus rs body result <;>
      simp [hr, h, jsOrString, ReviewActions.getDefaultMessage,
        ReviewDecision.statusString, ReviewActions.reviewerId]
  · intro pid subj u rid rs body result
    exact ⟨rfl, rfl⟩
  · intro pid subj u rid ns rs body result h
    simp [ContentAPI.approvePackage, jsOrField, jsOrString, h]

/-- Witness for `C9_approval_default_notes`: approving through the dialog
with whitespace-only notes sends the substituted default message. -/
theorem C9_witness :
    (ReviewActions.handleStatusUpdate "under_review" ReviewDecision.approved "   "
       200 (ErrorBody.parsed none) sampleStatusResponse).requestSent
      = some { status := "approved", reviewer_id := "educator_123", notes := "Package approved for publication" } :=
  C9_approval_default_notes.1 "under_review" "   " 200 (ErrorBody.parsed none)
    sampleStatusResponse rfl

/-! ## Claim C10 -/

/-- Claim C10: on a 2xx delete response exactly the cached packages whose
id equals the target are removed — the survivors are precisely the members
with a different id, in their original order (the result is a sublist of
the cache) — while on a non-2xx response the operation raises
"Failed to delete package" and the cache is returned untouched. -/
theorem C10_delete_package_frame (packages : List ContentPackage) (pid : String)
    (s : Nat) (body : ErrorBody) :
    (respOk s = true →
      ContentProvider.deletePackage packages pid s body
        = (packages.filter (fun pkg => pkg.id ≠ pid), Except.ok ())
      ∧ (ContentProvider.deletePackage packages pid s body).1.Sublist packages
      ∧ ∀ pkg : ContentPackage,
          pkg ∈ (ContentProvider.deletePackage packages pid s body).1 ↔
            pkg ∈ packages ∧ pkg.id ≠ pid)
    ∧ (respOk s = false →
      ContentProvider.deletePackage packages pid s body
        = (packages, Except.error "Failed to delete package")) := by
  constructor
  · intro h
    have heq : ContentProvider.deletePackage packages pid s body
        = (packages.filter (fun pkg => pkg.id ≠ pid), Except.ok ()) := by
      simp [ContentProvider.deletePackage, ContentAPI.deleteContentPackage, h]
    refine ⟨heq, ?_, ?_⟩
    · rw [heq]
      exact List.filter_sublist packages
    · intro pkg
      rw [heq]
      simp [List.mem_filter]
  · intro h
    simp [ContentProvider.deletePackage, ContentAPI.deleteContentPackage, h]

/-- Witness for `C10_delete_package_frame`: deleting `pkg_123` from a
two-element cache removes exactly it on 200 and leaves the cache intact
with an error on 500. -/
theorem C10_witness :
    ContentProvider.deletePackage [samplePackage, otherPackage] "pkg_123" 200
        ErrorBody.unparsable = ([otherPackage], Except.ok ())
    ∧ ContentProvider.deletePackage [samplePackage, otherPackage] "pkg_123" 500
        ErrorBody.unparsable
      = ([samplePackage, otherPackage], Except.error "Failed to delete package") := by
  constructor
  · have h := (C10_delete_package_frame [samplePackage, otherPackage] "pkg_123" 200
      ErrorBody.unparsable).1 (by decide)
    rw [h.1]
    rfl
  · exact (C10_delete_package_frame [samplePackage, otherPackage] "pkg_123" 500
      ErrorBody.unparsable).2 (by decide)
